import Mathlib

/-!
Shallow embedding of the reviews subsystem of the book-cataloguing backend
(src/routers/reviews.py), together with proofs about its pagination, Top-N
ranking, duplicate checks, ownership checks and like lifecycle.

The relational store is modelled as explicit lists of rows.  Each HTTP
handler becomes a pure function from the store state and request inputs to
an API result (success status plus payload, or error status plus error
code), paired with the successor store state when the handler writes.
Timestamps are naturals supplied by a `now` parameter where the code calls
the clock or relies on a column default.
-/

namespace BookReviews

/-- A row of the books table.  `deleted_at = none` means the book is
active; a non-null value is the soft-delete marker. -/
structure Book where
  id : Nat
  title : String
  deleted_at : Option Nat
  deriving Repr, DecidableEq

/-- A row of the users table (only the fields the reviews handlers read). -/
structure User where
  id : Nat
  name : String
  deriving Repr, DecidableEq

/-- A row of the reviews table. -/
structure Review where
  id : Nat
  user_id : Nat
  book_id : Nat
  content : String
  rating : Nat
  created_at : Nat
  updated_at : Nat
  deriving Repr, DecidableEq

/-- A row of the review_likes table. -/
structure ReviewLike where
  user_id : Nat
  review_id : Nat
  created_at : Nat
  deriving Repr, DecidableEq

/-- The relational store: one list of rows per table, in insertion order. -/
structure DB where
  books : List Book
  users : List User
  reviews : List Review
  likes : List ReviewLike
  deriving Repr, DecidableEq

/-- Outcome of a handler: success HTTP status with a payload, or an error
HTTP status with the machine-readable error code string. -/
inductive ApiResult (α : Type) where
  | ok : Nat → α → ApiResult α
  | err : Nat → String → ApiResult α
  deriving Repr, DecidableEq

/-- db.query(Book).filter(Book.id == book_id, Book.deleted_at.is_(None)).first() -/
def findActiveBook (db : DB) (book_id : Nat) : Option Book :=
  db.books.find? (fun b => b.id == book_id && b.deleted_at == none)

/-- Predicate matching the duplicate-review query filter
(Review.user_id == current_user.id, Review.book_id == book_id). -/
def reviewPairMatch (uid bid : Nat) (r : Review) : Bool :=
  r.user_id == uid && r.book_id == bid

/-- Predicate matching the like queries filter
(ReviewLike.user_id == current_user.id, ReviewLike.review_id == review_id). -/
def likeMatch (uid rid : Nat) (l : ReviewLike) : Bool :=
  l.user_id == uid && l.review_id == rid

/-- Predicate matching db.query(Review).filter(Review.id == review_id). -/
def reviewIdMatch (rid : Nat) (r : Review) : Bool :=
  r.id == rid

/-- The store assigns integer surrogate keys monotonically; the next review
id is one past the largest id present. -/
def nextReviewId (db : DB) : Nat :=
  (db.reviews.map Review.id).foldr max 0 + 1

/-- Payload of POST /api/books/{book_id}/reviews. -/
structure ReviewCreateResponse where
  id : Nat
  created_at : Nat
  deriving Repr, DecidableEq

/-- create_review: check the book is active, reject a duplicate review by
the same user for the same book, otherwise insert a new Review row. -/
def create_review (db : DB) (current_user book_id : Nat) (content : String)
    (rating : Nat) (now : Nat) : ApiResult ReviewCreateResponse × DB :=
  match findActiveBook db book_id with
  | none => (.err 404 "BOOK_NOT_FOUND", db)
  | some _ =>
    match db.reviews.find? (reviewPairMatch current_user book_id) with
    | some _ => (.err 409 "DUPLICATE_REVIEW", db)
    | none =>
      let rid := nextReviewId db
      let new_review : Review :=
        { id := rid, user_id := current_user, book_id := book_id,
          content := content, rating := rating,
          created_at := now, updated_at := now }
      (.ok 201 { id := rid, created_at := now },
       { db with reviews := db.reviews ++ [new_review] })

/-- One item of the review listing; the author name is the joined user row
name when that user exists. -/
structure ReviewListItem where
  id : Nat
  author_name : Option String
  content : String
  rating : Nat
  created_at : Nat
  deriving Repr, DecidableEq

/-- Pagination metadata block of the review listing. -/
structure ReviewPagination where
  page : Nat
  totalPages : Nat
  totalElements : Nat
  deriving Repr, DecidableEq

/-- Payload of GET /api/books/{book_id}/reviews. -/
structure ReviewListResponse where
  reviews : List ReviewListItem
  pagination : ReviewPagination
  deriving Repr, DecidableEq

/-- order_by(Review.created_at.desc()): newest first; mergeSort is stable,
so rows with equal created_at keep their insertion order. -/
def createdDesc (a b : Review) : Bool :=
  decide (b.created_at ≤ a.created_at)

/-- get_reviews: check the book is active, order the reviews of the book by
created_at descending, report total_elements and
total_pages = ceil(total_elements / size) (1 on an empty set), and return
the rows of the requested page with offset (page - 1) * size. -/
def get_reviews (db : DB) (book_id page size : Nat) : ApiResult ReviewListResponse :=
  match findActiveBook db book_id with
  | none => .err 404 "BOOK_NOT_FOUND"
  | some _ =>
    let query := (db.reviews.filter (fun r => r.book_id == book_id)).mergeSort createdDesc
    let total_elements := query.length
    let total_pages := if total_elements > 0 then (total_elements + size - 1) / size else 1
    let offset := (page - 1) * size
    let pageRows := (query.drop offset).take size
    .ok 200
      { reviews := pageRows.map (fun r =>
          { id := r.id
            author_name := (db.users.find? (fun u => u.id == r.user_id)).map User.name
            content := r.content
            rating := r.rating
            created_at := r.created_at })
        pagination :=
          { page := page, totalPages := total_pages, totalElements := total_elements } }

/-- Payload of PATCH /api/reviews/{review_id}. -/
structure ReviewUpdateResponse where
  id : Nat
  updated_at : Nat
  deriving Repr, DecidableEq

/-- Replace the first element satisfying p by its image under f, leaving
every other element alone: the ORM session mutates exactly the row object
that .first() returned. -/
def updateFirst (p : α → Bool) (f : α → α) : List α → List α
  | [] => []
  | a :: l => if p a then f a :: l else a :: updateFirst p f l

/-- The field update block of update_review: each supplied field overwrites
the old value, omitted fields keep it, and updated_at is always stamped. -/
def applyReviewUpdate (content? : Option String) (rating? : Option Nat)
    (now : Nat) (r : Review) : Review :=
  { r with
    content := content?.getD r.content
    rating := rating?.getD r.rating
    updated_at := now }

/-- update_review: 404 when no review has the id, 403 when the caller is
not the owner, otherwise mutate the supplied fields and stamp updated_at. -/
def update_review (db : DB) (current_user review_id : Nat)
    (content? : Option String) (rating? : Option Nat) (now : Nat) :
    ApiResult ReviewUpdateResponse × DB :=
  match db.reviews.find? (reviewIdMatch review_id) with
  | none => (.err 404 "REVIEW_NOT_FOUND", db)
  | some review =>
    if review.user_id != current_user then
      (.err 403 "FORBIDDEN", db)
    else
      let new_reviews :=
        updateFirst (reviewIdMatch review_id)
          (applyReviewUpdate content? rating? now) db.reviews
      (.ok 200 { id := review.id, updated_at := now },
       { db with reviews := new_reviews })

/-- Payload of DELETE /api/reviews/{review_id}. -/
structure ReviewDeleteResponse where
  id : Nat
  deriving Repr, DecidableEq

/-- delete_review: 404 when no review has the id, 403 when the caller is
not the owner, otherwise db.delete(review) removes that one row.
Modelled from the spec: the ORM model files are not part of the sources
here, so cascade configuration is taken from the spec, which states that
each delete in scope removes exactly one row and that likes attached to a
deleted review are not cleaned up. -/
def delete_review (db : DB) (current_user review_id : Nat) :
    ApiResult ReviewDeleteResponse × DB :=
  match db.reviews.find? (reviewIdMatch review_id) with
  | none => (.err 404 "REVIEW_NOT_FOUND", db)
  | some review =>
    if review.user_id != current_user then
      (.err 403 "FORBIDDEN", db)
    else
      (.ok 200 { id := review.id },
       { db with reviews := db.reviews.eraseP (reviewIdMatch review_id) })

/-- Payload of POST /api/reviews/{review_id}/like. -/
structure ReviewLikeResponse where
  review_id : Nat
  created_at : Nat
  deriving Repr, DecidableEq

/-- like_review: 404 when no review has the id, 409 when the caller already
has a like on it, otherwise insert a ReviewLike row. -/
def like_review (db : DB) (current_user review_id : Nat) (now : Nat) :
    ApiResult ReviewLikeResponse × DB :=
  match db.reviews.find? (reviewIdMatch review_id) with
  | none => (.err 404 "REVIEW_NOT_FOUND", db)
  | some _ =>
    match db.likes.find? (likeMatch current_user review_id) with
    | some _ => (.err 409 "DUPLICATE_LIKE", db)
    | none =>
      let new_like : ReviewLike :=
        { user_id := current_user, review_id := review_id, created_at := now }
      (.ok 201 { review_id := review_id, created_at := now },
       { db with likes := db.likes ++ [new_like] })

/-- unlike_review: look up the like row of (caller, review_id) only — the
review itself is never consulted — 404 LIKE_NOT_FOUND when absent,
otherwise delete that one like row. -/
def unlike_review (db : DB) (current_user review_id : Nat) :
    ApiResult Unit × DB :=
  match db.likes.find? (likeMatch current_user review_id) with
  | none => (.err 404 "LIKE_NOT_FOUND", db)
  | some _ =>
    (.ok 200 (), { db with likes := db.likes.eraseP (likeMatch current_user review_id) })

/-- COUNT(ReviewLike.review_id) grouped by review: the number of like rows
referencing the review. -/
def likeCount (db : DB) (review_id : Nat) : Nat :=
  (db.likes.filter (fun l => l.review_id == review_id)).length

/-- order_by(like_count.desc(), Review.created_at.desc()) as a boolean
comparator on (review, like_count) pairs. -/
def topOrder (a b : Review × Nat) : Bool :=
  decide (b.2 < a.2) || (a.2 == b.2 && decide (b.1.created_at ≤ a.1.created_at))

/-- The Top-N candidate set before LIMIT: every review of the book paired
with its like count (outer join: a review with no likes appears with count
0), sorted by like count descending then created_at descending. -/
def topCandidates (db : DB) (book_id : Nat) : List (Review × Nat) :=
  ((db.reviews.filter (fun r => r.book_id == book_id)).map
    (fun r => (r, likeCount db r.id))).mergeSort topOrder

/-- One item of the Top-N payload; the author name falls back to the
literal "Unknown" when the owning user cannot be resolved. -/
structure TopReviewItem where
  id : Nat
  author_name : String
  content : String
  rating : Nat
  like_count : Nat
  created_at : Nat
  deriving Repr, DecidableEq

/-- Payload of GET /api/books/{book_id}/reviews/top. -/
structure TopReviewListResponse where
  reviews : List TopReviewItem
  deriving Repr, DecidableEq

/-- get_top_reviews: check the book is active, then return the first
`limit` rows of the ranked candidate set. -/
def get_top_reviews (db : DB) (book_id limit : Nat) :
    ApiResult TopReviewListResponse :=
  match findActiveBook db book_id with
  | none => .err 404 "BOOK_NOT_FOUND"
  | some _ =>
    .ok 200
      { reviews := ((topCandidates db book_id).take limit).map (fun rl =>
          { id := rl.1.id
            author_name :=
              match db.users.find? (fun u => u.id == rl.1.user_id) with
              | some u => u.name
              | none => "Unknown"
            content := rl.1.content
            rating := rl.1.rating
            like_count := rl.2
            created_at := rl.1.created_at }) }

/-! ## Helper lemmas -/

/-- Erasing the first element satisfying p drops the head of the filtered
list. -/
theorem filter_eraseP (p : α → Bool) (l : List α) :
    (l.eraseP p).filter p = (l.filter p).tail := by
  induction l with
  | nil => simp
  | cons a l ih =>
    cases hpa : p a with
    | true => simp [List.eraseP_cons, List.filter_cons, hpa]
    | false => simp [List.eraseP_cons, List.filter_cons, hpa, ih]

/-- Finding after updateFirst: the first match is rewritten by f, and when
f preserves the predicate the lookup returns its image. -/
theorem find?_updateFirst (p : α → Bool) (f : α → α)
    (hpf : ∀ a, p a = true → p (f a) = true) (l : List α) :
    (updateFirst p f l).find? p = (l.find? p).map f := by
  induction l with
  | nil => simp [updateFirst]
  | cons a l ih =>
    cases hpa : p a with
    | true => simp [updateFirst, List.find?_cons, hpa, hpf a hpa]
    | false => simp [updateFirst, List.find?_cons, hpa, ih]

/-- updateFirst never touches an element that fails the predicate. -/
theorem mem_updateFirst_of_neg (p : α → Bool) (f : α → α) {l : List α}
    {a : α} (ha : a ∈ l) (hpa : p a = false) : a ∈ updateFirst p f l := by
  induction l with
  | nil => simp at ha
  | cons b l ih =>
    cases hpb : p b with
    | true =>
      rcases List.mem_cons.mp ha with rfl | hmem
      · rw [hpb] at hpa; cases hpa
      · simp [updateFirst, hpb, hmem]
    | false =>
      rcases List.mem_cons.mp ha with rfl | hmem
      · simp [updateFirst, hpb]
      · simp [updateFirst, hpb, ih hmem]

/-- The store-level content of ceiling division: with a positive page size
and a nonempty result set, (te + size - 1) / size pages cover all te rows
and one page fewer does not. -/
theorem ceil_pages_spec (te size : Nat) (hs : 0 < size) (ht : 0 < te) :
    te ≤ ((te + size - 1) / size) * size ∧
    ((te + size - 1) / size - 1) * size < te := by
  have hq : (te + size - 1) / size = (te - 1) / size + 1 := by
    have : te + size - 1 = (te - 1) + size := by omega
    rw [this, Nat.add_div_right _ hs]
  constructor
  · have h1 : te - 1 < ((te - 1) / size + 1) * size :=
      (Nat.div_lt_iff_lt_mul hs).mp (Nat.lt_succ_self _)
    rw [hq]
    generalize ((te - 1) / size + 1) * size = M at h1 ⊢
    omega
  · have h2 : (te - 1) / size * size ≤ te - 1 := Nat.div_mul_le_self _ _
    rw [hq, Nat.add_sub_cancel]
    generalize (te - 1) / size * size = M at h2 ⊢
    omega

/-- The Top-N comparator is transitive. -/
theorem topOrder_trans (a b c : Review × Nat) :
    topOrder a b → topOrder b c → topOrder a c := by
  simp only [topOrder, Bool.or_eq_true, Bool.and_eq_true, decide_eq_true_eq,
    beq_iff_eq]
  omega

/-- The Top-N comparator is total. -/
theorem topOrder_total (a b : Review × Nat) :
    topOrder a b || topOrder b a := by
  simp only [topOrder, Bool.or_eq_true, Bool.and_eq_true, decide_eq_true_eq,
    beq_iff_eq]
  omega

/-! ## Claim theorems -/

/-- Claim C2: for every review-listing request with valid page (at least 1)
and size (1 to 100) on an existing active book, the reported total_pages
equals the ceiling of total_elements / size when total_elements is
positive (characterised by: total_pages pages cover all rows and one page
fewer does not), and equals 1 when total_elements is zero. -/
theorem pagination_total_pages_C2 (db : DB) (bid page size : Nat) (b : Book)
    (hb : findActiveBook db bid = some b)
    (hp : 1 ≤ page) (hs1 : 1 ≤ size) (hs2 : size ≤ 100) :
    ∃ resp, get_reviews db bid page size = .ok 200 resp ∧
      resp.pagination.totalElements
        = (db.reviews.filter (fun r => r.book_id == bid)).length ∧
      (resp.pagination.totalElements = 0 → resp.pagination.totalPages = 1) ∧
      (0 < resp.pagination.totalElements →
        resp.pagination.totalElements ≤ resp.pagination.totalPages * size ∧
        (resp.pagination.totalPages - 1) * size
          < resp.pagination.totalElements) := by
  simp only [get_reviews, hb]
  refine ⟨_, rfl, ?_, ?_, ?_⟩
  · simp
  · intro h
    simp only [List.length_mergeSort] at h
    simp [h]
  · intro h
    simp only [List.length_mergeSort] at h ⊢
    rw [if_pos h]
    exact ceil_pages_spec _ _ hs1 h

/-- Claim C3: for an existing active book, requesting a review-list page
whose offset (page - 1) * size is at or beyond the last matching row
returns a success response with an empty reviews list and the same
total_pages and total_elements metadata as the page-1 request. -/
theorem pagination_out_of_range_C3 (db : DB) (bid page size : Nat) (b : Book)
    (hb : findActiveBook db bid = some b)
    (hoff : (db.reviews.filter (fun r => r.book_id == bid)).length
      ≤ (page - 1) * size) :
    ∃ resp resp1,
      get_reviews db bid page size = .ok 200 resp ∧
      resp.reviews = [] ∧
      get_reviews db bid 1 size = .ok 200 resp1 ∧
      resp.pagination.totalPages = resp1.pagination.totalPages ∧
      resp.pagination.totalElements = resp1.pagination.totalElements := by
  simp only [get_reviews, hb]
  refine ⟨_, _, rfl, ?_, rfl, rfl, rfl⟩
  have hnil : ((db.reviews.filter (fun r => r.book_id == bid)).mergeSort
      createdDesc).drop ((page - 1) * size) = [] :=
    List.drop_eq_nil_of_le (by simpa using hoff)
  simp [hnil]

/-- Claim C1: for every active book and limit, the Top-N review query
returns a list of length at most limit, sorted primarily by like_count
descending and, among equal like_count, by created_at descending; every
review of the book with zero likes is in the candidate set paired with
like count 0, not omitted. -/
theorem top_reviews_ranking_C1 (db : DB) (bid limit : Nat) (b : Book)
    (hb : findActiveBook db bid = some b)
    (h1 : 1 ≤ limit) (h2 : limit ≤ 50) :
    ∃ resp, get_top_reviews db bid limit = .ok 200 resp ∧
      resp.reviews.length ≤ limit ∧
      resp.reviews.Pairwise (fun x y =>
        y.like_count < x.like_count ∨
          (x.like_count = y.like_count ∧ y.created_at ≤ x.created_at)) ∧
      (∀ r ∈ db.reviews, r.book_id = bid → likeCount db r.id = 0 →
        (r, 0) ∈ topCandidates db bid) := by
  simp only [get_top_reviews, hb]
  refine ⟨_, rfl, ?_, ?_, ?_⟩
  · simp
  · have hs : (topCandidates db bid).Pairwise (fun a b => topOrder a b = true) :=
      List.sorted_mergeSort topOrder_trans topOrder_total _
    have ht : ((topCandidates db bid).take limit).Pairwise
        (fun a b => topOrder a b = true) :=
      List.Pairwise.sublist (List.take_sublist _ _) hs
    refine List.Pairwise.map _ ?_ ht
    intro a b hab
    simpa only [topOrder, Bool.or_eq_true, Bool.and_eq_true,
      decide_eq_true_eq, beq_iff_eq] using hab
  · intro r hr hbid hcnt
    have hmem : (r, likeCount db r.id) ∈ topCandidates db bid := by
      unfold topCandidates
      rw [List.mem_mergeSort]
      exact List.mem_map.mpr ⟨r, List.mem_filter.mpr ⟨hr, by simp [hbid]⟩, rfl⟩
    rwa [hcnt] at hmem

/-- Invariant: at most one Review row per (user, book) pair. -/
def reviewPairUnique (db : DB) : Prop :=
  db.reviews.Pairwise (fun r1 r2 =>
    ¬(r1.user_id = r2.user_id ∧ r1.book_id = r2.book_id))

/-- Claim C4: a review-creation request by a user who already has a review
for that active book returns DUPLICATE_REVIEW with status 409 and leaves
the store unchanged; moreover creation preserves the at-most-one-review
per (user, book) invariant, so at most one Review per pair ever exists. -/
theorem duplicate_review_C4 (db : DB) (uid bid : Nat) (c : String)
    (rg now : Nat) (b : Book) (rv : Review)
    (hb : findActiveBook db bid = some b)
    (hrv : rv ∈ db.reviews) (hu : rv.user_id = uid) (hbk : rv.book_id = bid) :
    create_review db uid bid c rg now = (.err 409 "DUPLICATE_REVIEW", db) ∧
    ∀ (db0 : DB) (u0 b0 : Nat) (c0 : String) (g0 n0 : Nat),
      reviewPairUnique db0 →
      reviewPairUnique (create_review db0 u0 b0 c0 g0 n0).2 := by
  constructor
  · have hsome : (db.reviews.find? (reviewPairMatch uid bid)).isSome := by
      rw [List.find?_isSome]
      exact ⟨rv, hrv, by simp [reviewPairMatch, hu, hbk]⟩
    obtain ⟨w, hw⟩ := Option.isSome_iff_exists.mp hsome
    simp [create_review, hb, hw]
  · intro db0 u0 b0 c0 g0 n0 hun
    cases hfb : findActiveBook db0 b0 with
    | none => simpa [create_review, hfb] using hun
    | some bk =>
      cases hdup : db0.reviews.find? (reviewPairMatch u0 b0) with
      | some w => simpa [create_review, hfb, hdup] using hun
      | none =>
        simp only [create_review, hfb, hdup]
        unfold reviewPairUnique at hun ⊢
        rw [List.pairwise_append]
        refine ⟨hun, by simp, ?_⟩
        intro a ha x hx
        simp only [List.mem_singleton] at hx
        subst hx
        have hnm := List.find?_eq_none.mp hdup a ha
        simp only [reviewPairMatch, Bool.and_eq_true, beq_iff_eq] at hnm
        simpa using fun h1 h2 => hnm ⟨h1, h2⟩

/-- Claim C5: an owner updating a review with only rating supplied leaves
the content field unchanged, mutates only the supplied field, and leaves
every other row untouched; updated_at is stamped with the supplied clock
value on every successful update regardless of which fields were given. -/
theorem update_rating_only_C5 (db : DB) (uid rid rr now : Nat) (rv : Review)
    (hfind : db.reviews.find? (reviewIdMatch rid) = some rv)
    (hown : rv.user_id = uid) :
    (∃ db2, update_review db uid rid none (some rr) now
        = (.ok 200 { id := rv.id, updated_at := now }, db2) ∧
      db2.reviews.find? (reviewIdMatch rid)
        = some { rv with rating := rr, updated_at := now } ∧
      ∀ r ∈ db.reviews, reviewIdMatch rid r = false → r ∈ db2.reviews) ∧
    (∀ (content? : Option String) (rating? : Option Nat),
      ∃ db2 rv2, update_review db uid rid content? rating? now
          = (.ok 200 { id := rv.id, updated_at := now }, db2) ∧
        db2.reviews.find? (reviewIdMatch rid) = some rv2 ∧
        rv2.updated_at = now) := by
  have hpf : ∀ (c? : Option String) (r? : Option Nat) (a : Review),
      reviewIdMatch rid a = true →
      reviewIdMatch rid (applyReviewUpdate c? r? now a) = true := by
    intro c? r? a hpa
    simpa [reviewIdMatch, applyReviewUpdate] using hpa
  have hrun : ∀ (c? : Option String) (r? : Option Nat),
      update_review db uid rid c? r? now
        = (.ok 200 { id := rv.id, updated_at := now },
           { db with reviews := (updateFirst (reviewIdMatch rid) (applyReviewUpdate c? r? now) db.reviews) }) := by
    intro c? r?
    simp [update_review, hfind, hown]
  have hfnd : ∀ (c? : Option String) (r? : Option Nat),
      (updateFirst (reviewIdMatch rid) (applyReviewUpdate c? r? now)
          db.reviews).find? (reviewIdMatch rid)
        = some (applyReviewUpdate c? r? now rv) := by
    intro c? r?
    rw [find?_updateFirst _ _ (hpf c? r?), hfind]
    rfl
  constructor
  · refine ⟨_, hrun none (some rr), ?_, ?_⟩
    · rw [hfnd none (some rr)]
      rfl
    · intro r hr hpr
      exact mem_updateFirst_of_neg _ _ hr hpr
  · intro c? r?
    exact ⟨_, _, hrun c? r?, hfnd c? r?, rfl⟩

/-- Claim C6: a review-update request by a caller who is not the owner of
the existing review returns FORBIDDEN with status 403 and leaves the store
(and hence the review content, rating and updated_at) unchanged. -/
theorem update_forbidden_C6 (db : DB) (uid rid : Nat)
    (content? : Option String) (rating? : Option Nat) (now : Nat) (rv : Review)
    (hfind : db.reviews.find? (reviewIdMatch rid) = some rv)
    (hnot : rv.user_id ≠ uid) :
    update_review db uid rid content? rating? now = (.err 403 "FORBIDDEN", db) ∧
    ((update_review db uid rid content? rating? now).2).reviews.find?
      (reviewIdMatch rid) = some rv := by
  have h : update_review db uid rid content? rating? now
      = (.err 403 "FORBIDDEN", db) := by
    simp [update_review, hfind, hnot]
  exact ⟨h, by rw [h]; exact hfind⟩

/-- A store whose only book is soft-deleted but still carries a review:
used to probe how the review-id-addressed handlers treat dependent rows of
a soft-deleted book. -/
def deletedBookDB : DB :=
  { books := [{ id := 1, title := "gone", deleted_at := some 5 }],
    users := [{ id := 1, name := "alice" }, { id := 2, name := "bob" }],
    reviews :=
      [{ id := 1, user_id := 1, book_id := 1, content := "A", rating := 4,
         created_at := 10, updated_at := 10 }],
    likes := [] }

/-- Claim C7 fails as stated: in deletedBookDB the single book is
soft-deleted, review 1 is a dependent row of it, yet liking that review
succeeds with 201 and inserts a ReviewLike row — the unlike-handler family
addressed by review id never consults the book soft-delete marker, so not
every book-referencing operation treats a soft-deleted book as
nonexistent. -/
theorem soft_delete_counterexample_C7 :
    (∀ x ∈ deletedBookDB.books, x.deleted_at ≠ none) ∧
    (deletedBookDB.reviews.find? (reviewIdMatch 1)
      = some { id := 1, user_id := 1, book_id := 1, content := "A",
               rating := 4, created_at := 10, updated_at := 10 }) ∧
    like_review deletedBookDB 2 1 7
      = (.ok 201 { review_id := 1, created_at := 7 },
         { deletedBookDB with
            likes := [{ user_id := 2, review_id := 1, created_at := 7 }] }) := by
  refine ⟨by decide, by decide, ?_⟩
  simp [like_review, deletedBookDB, reviewIdMatch, likeMatch]

/-- Claim C7 amended: the operations that take a book identifier directly
(review creation, review listing, Top-N listing) treat a soft-deleted book
as nonexistent — they return BOOK_NOT_FOUND with status 404 and leave the
store unchanged — while handlers addressed by a review id do not consult
the book soft-delete marker. -/
theorem soft_delete_book_C7 (db : DB) (bid : Nat)
    (hdel : ∀ x ∈ db.books, x.id = bid → x.deleted_at ≠ none)
    (uid : Nat) (c : String) (rg now page size limit : Nat) :
    create_review db uid bid c rg now = (.err 404 "BOOK_NOT_FOUND", db) ∧
    get_reviews db bid page size = .err 404 "BOOK_NOT_FOUND" ∧
    get_top_reviews db bid limit = .err 404 "BOOK_NOT_FOUND" := by
  have hnone : findActiveBook db bid = none := by
    rw [findActiveBook, List.find?_eq_none]
    intro x hx
    simp only [Bool.and_eq_true, beq_iff_eq, not_and]
    intro hid
    simpa using hdel x hx hid
  refine ⟨?_, ?_, ?_⟩
  · simp [create_review, hnone]
  · simp [get_reviews, hnone]
  · simp [get_top_reviews, hnone]

/-- Claim C8: for a user with no prior like on an existing review, liking
succeeds with 201 and appends exactly one ReviewLike row; a second like
while the first exists returns 409 DUPLICATE_LIKE without changing the
store; and after the user unlikes the review, a subsequent like succeeds
again. -/
theorem like_lifecycle_C8 (db : DB) (uid rid now : Nat) (rv : Review)
    (hrv : db.reviews.find? (reviewIdMatch rid) = some rv) :
    (db.likes.find? (likeMatch uid rid) = none →
      like_review db uid rid now
        = (.ok 201 { review_id := rid, created_at := now },
           { db with likes := db.likes
              ++ [{ user_id := uid, review_id := rid, created_at := now }] })) ∧
    (∀ l, db.likes.find? (likeMatch uid rid) = some l →
      like_review db uid rid now = (.err 409 "DUPLICATE_LIKE", db)) ∧
    (∀ l, db.likes.filter (likeMatch uid rid) = [l] →
      ∃ db1, unlike_review db uid rid = (.ok 200 (), db1) ∧
        like_review db1 uid rid now
          = (.ok 201 { review_id := rid, created_at := now },
             { db1 with likes := db1.likes
                ++ [{ user_id := uid, review_id := rid, created_at := now }] })) := by
  refine ⟨?_, ?_, ?_⟩
  · intro hnone
    simp [like_review, hrv, hnone]
  · intro l hl
    simp [like_review, hrv, hl]
  · intro l hfl
    have hsome : db.likes.find? (likeMatch uid rid) = some l := by
      rw [← List.filter_head?, hfl]
      rfl
    have hun : unlike_review db uid rid
        = (.ok 200 (), { db with likes := db.likes.eraseP (likeMatch uid rid) }) := by
      simp [unlike_review, hsome]
    have hafter : (db.likes.eraseP (likeMatch uid rid)).find? (likeMatch uid rid)
        = none := by
      rw [← List.filter_head?, filter_eraseP, hfl]
      rfl
    refine ⟨_, hun, ?_⟩
    simp [like_review, hrv, hafter]

/-- Claim C9 (implicit): the unlike handler never consults the reviews
table — for every caller and review identifier with no matching like row
(including identifiers of reviews that do not exist) it returns 404
LIKE_NOT_FOUND with the store unchanged, its only outcomes are 200 or 404
LIKE_NOT_FOUND, and it never removes a like row of another user or of
another review. -/
theorem unlike_no_review_check_C9 (db : DB) (uid rid : Nat) :
    (db.likes.find? (likeMatch uid rid) = none →
      unlike_review db uid rid = (.err 404 "LIKE_NOT_FOUND", db)) ∧
    ((unlike_review db uid rid).1 = .ok 200 ()
      ∨ (unlike_review db uid rid).1 = .err 404 "LIKE_NOT_FOUND") ∧
    (∀ l ∈ db.likes, l.user_id ≠ uid ∨ l.review_id ≠ rid →
      l ∈ ((unlike_review db uid rid).2).likes) := by
  refine ⟨?_, ?_, ?_⟩
  · intro hnone
    simp [unlike_review, hnone]
  · cases hf : db.likes.find? (likeMatch uid rid) with
    | none => right; simp [unlike_review, hf]
    | some l => left; simp [unlike_review, hf]
  · intro l hl hdiff
    have hplf : likeMatch uid rid l = false := by
      simp only [likeMatch, Bool.and_eq_false_iff, beq_eq_false_iff_ne]
      tauto
    cases hf : db.likes.find? (likeMatch uid rid) with
    | none => simpa [unlike_review, hf] using hl
    | some w =>
      simp only [unlike_review, hf]
      exact (List.mem_eraseP_of_neg (by simp [hplf])).mpr hl

/-- Claim C10 (implicit): deleting a review by its owner removes exactly
that one Review row — the like rows referencing it remain in the store,
and all other reviews, likes, users and books are unchanged. -/
theorem delete_review_frame_C10 (db : DB) (uid rid : Nat) (rv : Review)
    (hfind : db.reviews.find? (reviewIdMatch rid) = some rv)
    (hown : rv.user_id = uid) :
    ∃ db2, delete_review db uid rid = (.ok 200 { id := rv.id }, db2) ∧
      db2.reviews = db.reviews.eraseP (reviewIdMatch rid) ∧
      db2.reviews.length + 1 = db.reviews.length ∧
      (∀ r ∈ db.reviews, reviewIdMatch rid r = false → r ∈ db2.reviews) ∧
      db2.likes = db.likes ∧ db2.books = db.books ∧ db2.users = db.users := by
  have hd : delete_review db uid rid
      = (.ok 200 { id := rv.id },
         { db with reviews := db.reviews.eraseP (reviewIdMatch rid) }) := by
    simp [delete_review, hfind, hown]
  refine ⟨_, hd, rfl, ?_, ?_, rfl, rfl, rfl⟩
  · have hmem : rv ∈ db.reviews := List.mem_of_find?_eq_some hfind
    have hprv : reviewIdMatch rid rv = true := List.find?_some hfind
    rw [List.length_eraseP_of_mem hmem hprv]
    have : 1 ≤ db.reviews.length := List.length_pos_of_mem hmem
    omega
  · intro r hr hpr
    exact (List.mem_eraseP_of_neg (by simp [hpr])).mpr hr

/-! ## Concrete instantiations -/

/-- A sample store with one active book, three reviews and three likes,
used to instantiate the theorems at concrete inputs. -/
def sampleDB : DB :=
  { books := [{ id := 1, title := "b1", deleted_at := none }],
    users := [{ id := 1, name := "alice" }, { id := 2, name := "bob" }],
    reviews :=
      [{ id := 1, user_id := 1, book_id := 1, content := "A", rating := 4,
         created_at := 10, updated_at := 10 },
       { id := 2, user_id := 2, book_id := 1, content := "B", rating := 5,
         created_at := 20, updated_at := 20 },
       { id := 3, user_id := 1, book_id := 1, content := "C", rating := 3,
         created_at := 30, updated_at := 30 }],
    likes :=
      [{ user_id := 1, review_id := 1, created_at := 11 },
       { user_id := 2, review_id := 1, created_at := 12 },
       { user_id := 1, review_id := 2, created_at := 21 }] }

/-- The single active book of sampleDB. -/
def sampleBook : Book := { id := 1, title := "b1", deleted_at := none }

/-- Witness for C2 at sampleDB, page 2, size 2. -/
theorem pagination_total_pages_C2_witness :
    ∃ resp, get_reviews sampleDB 1 2 2 = .ok 200 resp ∧
      resp.pagination.totalElements
        = (sampleDB.reviews.filter (fun r => r.book_id == 1)).length ∧
      (resp.pagination.totalElements = 0 → resp.pagination.totalPages = 1) ∧
      (0 < resp.pagination.totalElements →
        resp.pagination.totalElements ≤ resp.pagination.totalPages * 2 ∧
        (resp.pagination.totalPages - 1) * 2
          < resp.pagination.totalElements) :=
  pagination_total_pages_C2 sampleDB 1 2 2 sampleBook rfl
    (by decide) (by decide) (by decide)

/-- Witness for C3 at sampleDB, page 5, size 2 (offset 8 beyond the 3
matching rows). -/
theorem pagination_out_of_range_C3_witness :
    ∃ resp resp1,
      get_reviews sampleDB 1 5 2 = .ok 200 resp ∧
      resp.reviews = [] ∧
      get_reviews sampleDB 1 1 2 = .ok 200 resp1 ∧
      resp.pagination.totalPages = resp1.pagination.totalPages ∧
      resp.pagination.totalElements = resp1.pagination.totalElements :=
  pagination_out_of_range_C3 sampleDB 1 5 2 sampleBook rfl (by decide)

/-- Witness for C1 at sampleDB with limit 2. -/
theorem top_reviews_ranking_C1_witness :
    ∃ resp, get_top_reviews sampleDB 1 2 = .ok 200 resp ∧
      resp.reviews.length ≤ 2 ∧
      resp.reviews.Pairwise (fun x y =>
        y.like_count < x.like_count ∨
          (x.like_count = y.like_count ∧ y.created_at ≤ x.created_at)) ∧
      (∀ r ∈ sampleDB.reviews, r.book_id = 1 → likeCount sampleDB r.id = 0 →
        (r, 0) ∈ topCandidates sampleDB 1) :=
  top_reviews_ranking_C1 sampleDB 1 2 sampleBook rfl (by decide) (by decide)

/-- Witness for C4: user 1 already reviewed book 1 in sampleDB. -/
theorem duplicate_review_C4_witness :
    create_review sampleDB 1 1 "dup" 5 99 = (.err 409 "DUPLICATE_REVIEW", sampleDB) ∧
    ∀ (db0 : DB) (u0 b0 : Nat) (c0 : String) (g0 n0 : Nat),
      reviewPairUnique db0 →
      reviewPairUnique (create_review db0 u0 b0 c0 g0 n0).2 :=
  duplicate_review_C4 sampleDB 1 1 "dup" 5 99 sampleBook
    { id := 1, user_id := 1, book_id := 1, content := "A", rating := 4,
      created_at := 10, updated_at := 10 }
    rfl (by decide) rfl rfl

/-- Witness for C5: owner 2 updates review 2 supplying only a rating. -/
theorem update_rating_only_C5_witness :
    (∃ db2, update_review sampleDB 2 2 none (some 1) 99
        = (.ok 200 { id := 2, updated_at := 99 }, db2) ∧
      db2.reviews.find? (reviewIdMatch 2)
        = some { id := 2, user_id := 2, book_id := 1, content := "B",
                 rating := 1, created_at := 20, updated_at := 99 } ∧
      ∀ r ∈ sampleDB.reviews, reviewIdMatch 2 r = false → r ∈ db2.reviews) ∧
    (∀ (content? : Option String) (rating? : Option Nat),
      ∃ db2 rv2, update_review sampleDB 2 2 content? rating? 99
          = (.ok 200 { id := 2, updated_at := 99 }, db2) ∧
        db2.reviews.find? (reviewIdMatch 2) = some rv2 ∧
        rv2.updated_at = 99) :=
  update_rating_only_C5 sampleDB 2 2 1 99
    { id := 2, user_id := 2, book_id := 1, content := "B", rating := 5,
      created_at := 20, updated_at := 20 }
    rfl rfl

/-- Witness for C6: user 2 attempts to update review 1 owned by user 1. -/
theorem update_forbidden_C6_witness :
    update_review sampleDB 2 1 (some "hacked") none 99
      = (.err 403 "FORBIDDEN", sampleDB) ∧
    ((update_review sampleDB 2 1 (some "hacked") none 99).2).reviews.find?
      (reviewIdMatch 1)
      = some { id := 1, user_id := 1, book_id := 1, content := "A",
               rating := 4, created_at := 10, updated_at := 10 } :=
  update_forbidden_C6 sampleDB 2 1 (some "hacked") none 99
    { id := 1, user_id := 1, book_id := 1, content := "A", rating := 4,
      created_at := 10, updated_at := 10 }
    rfl (by decide)

/-- Witness for the amended C7 at deletedBookDB. -/
theorem soft_delete_book_C7_witness :
    create_review deletedBookDB 2 1 "x" 5 99 = (.err 404 "BOOK_NOT_FOUND", deletedBookDB) ∧
    get_reviews deletedBookDB 1 1 10 = .err 404 "BOOK_NOT_FOUND" ∧
    get_top_reviews deletedBookDB 1 10 = .err 404 "BOOK_NOT_FOUND" :=
  soft_delete_book_C7 deletedBookDB 1 (by decide) 2 "x" 5 99 1 10 10

/-- Witness for C8: user 2 likes review 2 (fresh), and user 1 unlikes then
re-likes review 2. -/
theorem like_lifecycle_C8_witness :
    like_review sampleDB 2 2 99
      = (.ok 201 { review_id := 2, created_at := 99 },
         { sampleDB with likes := (sampleDB.likes ++ [{ user_id := 2, review_id := 2, created_at := 99 }]) }) ∧
    (∃ db1, unlike_review sampleDB 1 2 = (.ok 200 (), db1) ∧
      like_review db1 1 2 99
        = (.ok 201 { review_id := 2, created_at := 99 },
           { db1 with likes := (db1.likes ++ [{ user_id := 1, review_id := 2, created_at := 99 }]) })) :=
  ⟨(like_lifecycle_C8 sampleDB 2 2 99
      { id := 2, user_id := 2, book_id := 1, content := "B", rating := 5,
        created_at := 20, updated_at := 20 } rfl).1 (by decide),
   (like_lifecycle_C8 sampleDB 1 2 99
      { id := 2, user_id := 2, book_id := 1, content := "B", rating := 5,
        created_at := 20, updated_at := 20 } rfl).2.2
     { user_id := 1, review_id := 2, created_at := 21 } (by decide)⟩

/-- Witness for C9: user 2 unlikes review 3, which nobody has liked. -/
theorem unlike_no_review_check_C9_witness :
    unlike_review sampleDB 2 3 = (.err 404 "LIKE_NOT_FOUND", sampleDB) :=
  (unlike_no_review_check_C9 sampleDB 2 3).1 (by decide)

/-- Witness for C10: owner 1 deletes review 1; the two likes of review 1
stay in the store. -/
theorem delete_review_frame_C10_witness :
    ∃ db2, delete_review sampleDB 1 1 = (.ok 200 { id := 1 }, db2) ∧
      db2.reviews = sampleDB.reviews.eraseP (reviewIdMatch 1) ∧
      db2.reviews.length + 1 = sampleDB.reviews.length ∧
      (∀ r ∈ sampleDB.reviews, reviewIdMatch 1 r = false → r ∈ db2.reviews) ∧
      db2.likes = sampleDB.likes ∧ db2.books = sampleDB.books ∧
      db2.users = sampleDB.users :=
  delete_review_frame_C10 sampleDB 1 1
    { id := 1, user_id := 1, book_id := 1, content := "A", rating := 4,
      created_at := 10, updated_at := 10 }
    rfl rfl

end BookReviews
